import Mathlib

/-!
Shallow embedding of the TradingAgents device-code authentication subsystem:
the Grant and Token value objects (tradingagents/auth/models.py), the
two-tier token store (tradingagents/auth/token_store.py) and the AuthClient
orchestration (tradingagents/auth/auth_client.py).

Modelling conventions:
- Wall-clock datetimes become integers (seconds); `datetime.now()` is an
  explicit `now : Int` parameter, and `time.sleep(s)` advances `now` by `s`.
- Network collaborators are oracles: each operation receives the scripted
  response(s) the server would produce, mirroring the FakeSession used by
  the unit tests of the repository.
- Python exceptions become an explicit error type `PyError`; exception
  propagation becomes `Except PyError`.
-/

/-- Python exception values raised inside the authentication subsystem.
The first five constructors are the taxonomy of
tradingagents/auth/exceptions.py (all subclasses of the base
AuthenticationError). `keyError` is the builtin KeyError raised by a
subscript on a missing dict key; `passwordDeleteError` is
keyring.errors.PasswordDeleteError; `otherError` stands for any other
exception foreign to the taxonomy (for example webbrowser.Error). -/
inductive PyError where
  | authenticationError (msg : String)
  | deviceCodeError (msg : String)
  | tokenRefreshError (msg : String)
  | tokenStorageError (msg : String)
  | tokenRevocationError (msg : String)
  | keyError (key : String)
  | passwordDeleteError
  | otherError (msg : String)
deriving DecidableEq

/-- Whether the exception is an instance of the base AuthenticationError
class: true exactly for the five members of the taxonomy in
tradingagents/auth/exceptions.py. -/
def PyError.isAuthenticationError : PyError → Bool
  | .authenticationError _ => true
  | .deviceCodeError _ => true
  | .tokenRefreshError _ => true
  | .tokenStorageError _ => true
  | .tokenRevocationError _ => true
  | .keyError _ => false
  | .passwordDeleteError => false
  | .otherError _ => false

/-- TokenSet dataclass of tradingagents/auth/models.py. -/
structure TokenSet where
  access_token : String
  token_type : String
  expires_at : Int
  refresh_token : Option String
  scope : Option String
deriving DecidableEq

/-- A JSON body returned by the token endpoint, restricted to the keys the
code reads. A `none` field is an absent key. -/
structure TokenPayload where
  access_token : Option String
  token_type : Option String
  expires_in : Option Int
  refresh_token : Option String
  scope : Option String
deriving DecidableEq

/-- TokenSet.from_response: `expires_in = int(payload.get("expires_in", 0))`,
`expires_at = now + expires_in`; the subscript `payload["access_token"]`
raises KeyError when the key is absent; `token_type` defaults to "bearer". -/
def TokenSet.from_response (now : Int) (payload : TokenPayload) :
    Except PyError TokenSet :=
  let expires_in := payload.expires_in.getD 0
  let expires_at := now + expires_in
  match payload.access_token with
  | none => .error (.keyError "access_token")
  | some tok =>
      .ok { access_token := tok,
            token_type := payload.token_type.getD "bearer",
            expires_at := expires_at,
            refresh_token := payload.refresh_token,
            scope := payload.scope }

/-- TokenSet.is_expired: `now >= expires_at - timedelta(seconds=skew_seconds)`.
The Python default for `skew_seconds` is 30; callers here pass it
explicitly. -/
def TokenSet.is_expired (t : TokenSet) (skew_seconds now : Int) : Bool :=
  decide (t.expires_at - skew_seconds ≤ now)

/-- DeviceCodeGrant dataclass of tradingagents/auth/models.py. -/
structure DeviceCodeGrant where
  device_code : String
  user_code : String
  verification_uri : String
  verification_uri_complete : Option String
  expires_at : Int
  interval : Int
deriving DecidableEq

/-- DeviceCodeGrant.is_expired: `now >= expires_at` (no skew). -/
def DeviceCodeGrant.is_expired (g : DeviceCodeGrant) (now : Int) : Bool :=
  decide (g.expires_at ≤ now)

/-- Python truthiness of an optional string: None and the empty string are
falsy. Used for checks such as `if token_set.refresh_token:`. -/
def truthyStr : Option String → Bool
  | none => false
  | some s => decide (s ≠ "")

/-- One scripted response of the token endpoint during polling. `ok` is an
HTTP-success response with its JSON body; `err` is a non-success response,
carrying `token_response.json().get("error")` — `none` when the JSON body
has no "error" key (Python None, printed as "None" in the f-string). A
non-JSON error body is represented by `err (some text)`: the code then
compares the raw text against the protocol strings exactly as it compares
an extracted error code. -/
inductive TokenEndpointResp where
  | ok (payload : TokenPayload)
  | err (code : Option String)
deriving DecidableEq

/-- The f-string rendering of the extracted error value (str(None) is
"None"). -/
def errorCodeText : Option String → String
  | some s => s
  | none => "None"

/-- The mutable local state of the poll_for_token loop: the grant argument,
the local `interval` variable initialised from `grant.interval`, and the
wall clock advanced by each `time.sleep`. -/
structure PollSt where
  grant : DeviceCodeGrant
  interval : Int
  now : Int
deriving DecidableEq

/-- How one call of poll_for_token terminates. `outOfResponses` is a model
artifact: the scripted response list was exhausted while the loop would
have issued a further request. -/
inductive PollOutcome where
  | success (t : TokenSet)
  | failure (e : PyError)
  | outOfResponses
deriving DecidableEq

/-- Observable result of poll_for_token: the outcome, the number of HTTP
requests issued to the token endpoint, the sequence of sleep durations in
order, and the final loop state. -/
structure PollResult where
  outcome : PollOutcome
  requests : Nat
  sleeps : List Int
  final : PollSt
deriving DecidableEq

/-- The while-loop of AuthClient.poll_for_token, one scripted response per
issued request. The expiry guard `while not grant.is_expired()` is checked
before every request, including when the script is exhausted. -/
def pollLoop (st : PollSt) : List TokenEndpointResp → PollResult
  | [] =>
      if st.grant.is_expired st.now then
        { outcome := .failure (.deviceCodeError
            "Device code expired before polling completed."),
          requests := 0, sleeps := [], final := st }
      else
        { outcome := .outOfResponses, requests := 0, sleeps := [], final := st }
  | r :: rest =>
      if st.grant.is_expired st.now then
        { outcome := .failure (.deviceCodeError
            "Device code expired before polling completed."),
          requests := 0, sleeps := [], final := st }
      else
        match r with
        | .ok payload =>
            match TokenSet.from_response st.now payload with
            | .ok t =>
                { outcome := .success t, requests := 1, sleeps := [], final := st }
            | .error e =>
                { outcome := .failure e, requests := 1, sleeps := [], final := st }
        | .err code =>
            if code = some "authorization_pending" then
              let st2 : PollSt := { st with now := st.now + st.interval }
              let sub := pollLoop st2 rest
              { outcome := sub.outcome, requests := sub.requests + 1,
                sleeps := st.interval :: sub.sleeps, final := sub.final }
            else if code = some "slow_down" then
              let i2 := st.interval + 5
              let st2 : PollSt :=
                { grant := st.grant, interval := i2, now := st.now + i2 }
              let sub := pollLoop st2 rest
              { outcome := sub.outcome, requests := sub.requests + 1,
                sleeps := i2 :: sub.sleeps, final := sub.final }
            else if code = some "expired_token" then
              { outcome := .failure (.deviceCodeError
                  "The device code has expired before authorization was completed."),
                requests := 1, sleeps := [], final := st }
            else
              { outcome := .failure (.authenticationError
                  ("Authentication failed: " ++ errorCodeText code)),
                requests := 1, sleeps := [], final := st }

/-- Whether every scripted response keeps the poll loop polling: an error
body whose code is authorization_pending or slow_down. -/
def onlyRetryCodes : List TokenEndpointResp → Bool
  | [] => true
  | .err (some c) :: rest =>
      (decide (c = "authorization_pending") || decide (c = "slow_down")) &&
        onlyRetryCodes rest
  | _ => false

/-- Spec-side reference schedule of waits, written from the words of the
spec: on authorization_pending wait the current interval and retry; on
slow_down increase the interval by the fixed increment of 5 seconds, wait
the increased interval, and keep the increase for every subsequent
attempt. -/
def specSleepSchedule (interval : Int) : List TokenEndpointResp → List Int
  | [] => []
  | .err (some c) :: rest =>
      if c = "authorization_pending" then
        interval :: specSleepSchedule interval rest
      else if c = "slow_down" then
        (interval + 5) :: specSleepSchedule (interval + 5) rest
      else []
  | _ => []

/-- Number of slow_down responses in a script. -/
def countSlowDown : List TokenEndpointResp → Nat
  | [] => 0
  | .err (some c) :: rest =>
      (if c = "slow_down" then 1 else 0) + countSlowDown rest
  | _ :: rest => countSlowDown rest

/-- Serialized token payload as written by TokenStore. The JSON object of
`_serialize` (exactly the five keys below) and the ISO-8601 rendering of
`expires_at` are abstracted to a record: `json.loads` after `json.dumps`
and `datetime.fromisoformat` after `isoformat` are mutually inverse on the
values the store handles. -/
structure StoredJson where
  access_token : String
  refresh_token : Option String
  token_type : String
  scope : Option String
  expires_at : Int
deriving DecidableEq

/-- State of the persistence backends seen by one TokenStore: whether the
keyring module imported, the keyring entry under (service_name, "tokens"),
and the fallback file content (`none` = file does not exist). -/
structure StoreState where
  keyringAvailable : Bool
  keyringEntry : Option StoredJson
  fileData : Option StoredJson
deriving DecidableEq

namespace TokenStore

/-- TokenStore._serialize. -/
def _serialize (t : TokenSet) : StoredJson :=
  { access_token := t.access_token, refresh_token := t.refresh_token,
    token_type := t.token_type, scope := t.scope, expires_at := t.expires_at }

/-- TokenStore._deserialize: `data["access_token"]` and `data["expires_at"]`
are required; `refresh_token`, `scope` use `.get`; `token_type` defaults
to "bearer" (always present in data written by `_serialize`). -/
def _deserialize (d : StoredJson) : TokenSet :=
  { access_token := d.access_token, token_type := d.token_type,
    expires_at := d.expires_at, refresh_token := d.refresh_token,
    scope := d.scope }

/-- TokenStore._load_from_keyring: None when the keyring module is absent
or no entry is stored. -/
def _load_from_keyring (st : StoreState) : Option TokenSet :=
  if st.keyringAvailable then st.keyringEntry.map _deserialize else none

/-- TokenStore._save_to_keyring: stores and returns True when keyring is
available, otherwise returns False without touching anything. -/
def _save_to_keyring (st : StoreState) (t : TokenSet) : Bool × StoreState :=
  if st.keyringAvailable then
    (true, { st with keyringEntry := some (_serialize t) })
  else (false, st)

/-- TokenStore.save: keyring first; on unavailability fall back to writing
the serialized form to the file (mkdir and chmod 0600 have no observable
effect in the model). -/
def save (st : StoreState) (t : TokenSet) : StoreState :=
  let ks := _save_to_keyring st t
  if ks.1 then ks.2 else { ks.2 with fileData := some (_serialize t) }

/-- TokenStore.load: keyring first, then the fallback file, else None. -/
def load (st : StoreState) : Option TokenSet :=
  match _load_from_keyring st with
  | some t => some t
  | none => st.fileData.map _deserialize

/-- keyring.delete_password: deletes the entry, raising
PasswordDeleteError when no entry exists. -/
def keyringDelete (entry : Option StoredJson) :
    Except PyError (Option StoredJson) :=
  match entry with
  | some _ => Except.ok none
  | none => Except.error PyError.passwordDeleteError

/-- TokenStore.clear: delete the keyring entry, swallowing
PasswordDeleteError; then unlink the fallback file when it exists. Only an
unexpected I/O failure (outside this model) would surface as
TokenStorageError, hence the Except result. -/
def clear (st : StoreState) : Except PyError StoreState :=
  let st2 :=
    if st.keyringAvailable then
      match keyringDelete st.keyringEntry with
      | .ok e => { st with keyringEntry := e }
      | .error _ => st
    else st
  Except.ok { st2 with fileData := none }

end TokenStore

namespace AuthClient

/-- AuthClient.poll_for_token: runs the loop with the local `interval`
initialised from `grant.interval`. -/
def poll_for_token (grant : DeviceCodeGrant) (now : Int)
    (responses : List TokenEndpointResp) : PollResult :=
  pollLoop { grant := grant, interval := grant.interval, now := now } responses

/-- A scripted response of the token endpoint to a refresh request: an
HTTP-success body, or a non-success response with its text. -/
inductive RefreshResp where
  | ok (payload : TokenPayload)
  | err (text : String)
deriving DecidableEq

/-- AuthClient.refresh: TokenRefreshError on a non-success status,
otherwise the parsed token set. -/
def refresh (now : Int) (resp : RefreshResp) : Except PyError TokenSet :=
  match resp with
  | .err text => .error (.tokenRefreshError ("Failed to refresh token: " ++ text))
  | .ok payload => TokenSet.from_response now payload

/-- AuthClient.revoke: TokenRevocationError unless the status is 200 or
204. -/
def revoke (statusCode : Int) (text : String) : Except PyError Unit :=
  if statusCode = 200 ∨ statusCode = 204 then .ok ()
  else .error (.tokenRevocationError ("Failed to revoke token: " ++ text))

/-- A scripted response of the device-code endpoint: the parsed grant on
success (DeviceCodeGrant.from_response is abstracted to the grant value it
yields, which no claim depends on), or the text of a non-success
response. -/
inductive DeviceCodeResp where
  | ok (grant : DeviceCodeGrant)
  | err (text : String)
deriving DecidableEq

/-- AuthClient.start_device_code. -/
def start_device_code (resp : DeviceCodeResp) : Except PyError DeviceCodeGrant :=
  match resp with
  | .err text => .error (.deviceCodeError ("Device-code initiation failed: " ++ text))
  | .ok grant => .ok grant

/-- Observable side effects of one login call: how many times the
browser-opening collaborator was invoked, and how many HTTP requests the
poll loop issued. -/
structure LoginTrace where
  browserAttempts : Nat
  pollRequests : Nat
deriving DecidableEq

/-- AuthClient.login: start_device_code, then (when open_browser) the
_open_browser collaborator — whose outcome is the oracle `browserOutcome`
and which the source invokes with no surrounding try/except — then
poll_for_token, then TokenStore.save, returning the token. -/
def login (open_browser : Bool) (deviceResp : DeviceCodeResp)
    (browserOutcome : Except PyError Unit) (now : Int)
    (pollResponses : List TokenEndpointResp) (st : StoreState) :
    Except PyError (TokenSet × StoreState × LoginTrace) :=
  match start_device_code deviceResp with
  | .error e => .error e
  | .ok grant =>
      let browserAttempts : Nat := if open_browser then 1 else 0
      let browserStep : Except PyError Unit :=
        if open_browser then browserOutcome else .ok ()
      match browserStep with
      | .error e => .error e
      | .ok _ =>
          let result := poll_for_token grant now pollResponses
          match result.outcome with
          | .success t =>
              .ok (t, TokenStore.save st t,
                   { browserAttempts := browserAttempts,
                     pollRequests := result.requests })
          | .failure e => .error e
          | .outOfResponses => .error (.otherError "scripted responses exhausted")

/-- Observable side effects of one get_session call: refresh requests
issued directly, and full login flows triggered. -/
structure SessionTrace where
  refreshRequests : Nat
  loginCalls : Nat
deriving DecidableEq

/-- AuthClient.get_session: load the cached token; return it unchanged when
present and not expired under the 30-second default skew; when present,
expired and carrying a (truthy) refresh_token, attempt one refresh,
persisting and returning its result on success and swallowing only
TokenRefreshError on failure; otherwise perform a full login. The login
collaborator outcomes are passed through as oracles. -/
def get_session (now : Int) (st : StoreState) (refreshResp : RefreshResp)
    (deviceResp : DeviceCodeResp) (browserOutcome : Except PyError Unit)
    (pollResponses : List TokenEndpointResp) :
    Except PyError (TokenSet × StoreState × SessionTrace) :=
  let doLogin (tr : SessionTrace) :
      Except PyError (TokenSet × StoreState × SessionTrace) :=
    match login true deviceResp browserOutcome now pollResponses st with
    | .ok (t, st2, _) => .ok (t, st2, tr)
    | .error e => .error e
  match TokenStore.load st with
  | some t =>
      if t.is_expired 30 now = false then .ok (t, st, ⟨0, 0⟩)
      else if truthyStr t.refresh_token then
        match refresh now refreshResp with
        | .ok refreshed =>
            .ok (refreshed, TokenStore.save st refreshed, ⟨1, 0⟩)
        | .error (.tokenRefreshError _) => doLogin ⟨1, 1⟩
        | .error e => .error e
      else doLogin ⟨0, 1⟩
  | none => doLogin ⟨0, 1⟩

/-- Observable side effects of one logout call. -/
structure LogoutTrace where
  revokeAttempts : Nat
  clearCalls : Nat
deriving DecidableEq

/-- AuthClient.logout: load the cached token; when present, call revoke
and swallow TokenRevocationError; then call TokenStore.clear
unconditionally. -/
def logout (st : StoreState) (revokeStatus : Int) (revokeText : String) :
    Except PyError (StoreState × LogoutTrace) :=
  match TokenStore.load st with
  | some _ =>
      match revoke revokeStatus revokeText with
      | .ok _ =>
          match TokenStore.clear st with
          | .ok st2 => .ok (st2, ⟨1, 1⟩)
          | .error e => .error e
      | .error (.tokenRevocationError _) =>
          match TokenStore.clear st with
          | .ok st2 => .ok (st2, ⟨1, 1⟩)
          | .error e => .error e
      | .error e => .error e
  | none =>
      match TokenStore.clear st with
      | .ok st2 => .ok (st2, ⟨0, 1⟩)
      | .error e => .error e

end AuthClient

/-! Theorems. -/

/-- Helper: the poll loop never writes to the grant carried in its state. -/
lemma pollLoop_final_grant (rs : List TokenEndpointResp) :
    ∀ st : PollSt, (pollLoop st rs).final.grant = st.grant := by
  induction rs with
  | nil =>
      intro st
      cases h : st.grant.is_expired st.now <;> simp [pollLoop, h]
  | cons r rest ih =>
      intro st
      cases h : st.grant.is_expired st.now
      · cases r with
        | ok payload =>
            cases hfr : TokenSet.from_response st.now payload <;>
              simp [pollLoop, h, hfr]
        | err code =>
            by_cases h1 : code = some "authorization_pending"
            · simp [pollLoop, h, h1, ih]
            · by_cases h2 : code = some "slow_down"
              · simp [pollLoop, h, h1, h2, ih]
              · by_cases h3 : code = some "expired_token" <;>
                  simp [pollLoop, h, h1, h2, h3]
      · simp [pollLoop, h]

/-- C3 (amended): for every token and skew, is_expired(skew) holds iff
now >= expires_at - skew; and a token parsed from a success response whose
expires_in strictly exceeds the 30-second default skew is not expired
immediately after construction (a merely positive expires_in of at most 30
seconds is already expired at construction, see the counterexample). -/
theorem token_expiry_iff_and_fresh_beyond_skew :
    (∀ (t : TokenSet) (skew now : Int),
        t.is_expired skew now = true ↔ now ≥ t.expires_at - skew) ∧
    (∀ (now : Int) (p : TokenPayload) (t : TokenSet),
        30 < p.expires_in.getD 0 →
        TokenSet.from_response now p = .ok t →
        t.is_expired 30 now = false) := by
  constructor
  · intro t skew now
    simp [TokenSet.is_expired, ge_iff_le]
  · intro now p t hgt hok
    unfold TokenSet.from_response at hok
    cases hac : p.access_token with
    | none => simp [hac] at hok
    | some a =>
        simp only [hac] at hok
        cases hok with
        | refl =>
            simp only [TokenSet.is_expired, decide_eq_false_iff_not, not_le]
            omega

/-- Witness for the amended C3 at expires_in = 60 and now = 0. -/
theorem token_expiry_witness :
    TokenSet.is_expired
      { access_token := "a", token_type := "bearer", expires_at := 60,
        refresh_token := none, scope := none } 30 0 = false :=
  token_expiry_iff_and_fresh_beyond_skew.2 0
    { access_token := some "a", token_type := none, expires_in := some 60,
      refresh_token := none, scope := none }
    { access_token := "a", token_type := "bearer", expires_at := 60,
      refresh_token := none, scope := none } (by decide) rfl

/-- Counterexample to C3 as stated: a token constructed from a success
response with the positive expires_in of 10 seconds is already expired
under the default 30-second skew immediately after construction. -/
theorem token_positive_expires_in_immediately_expired :
    (0 : Int) < 10 ∧
    TokenSet.from_response 0
      { access_token := some "a", token_type := none, expires_in := some 10,
        refresh_token := none, scope := none } =
      Except.ok { access_token := "a", token_type := "bearer", expires_at := 10,
                  refresh_token := none, scope := none } ∧
    TokenSet.is_expired
      { access_token := "a", token_type := "bearer", expires_at := 10,
        refresh_token := none, scope := none } 30 0 = true :=
  ⟨by decide, rfl, by decide⟩

/-- C4: poll_for_token on a grant already expired at call time fails with
DeviceCodeError and issues zero requests to the token endpoint. -/
theorem poll_expired_grant_fails_without_request
    (g : DeviceCodeGrant) (now : Int) (rs : List TokenEndpointResp)
    (h : g.expires_at ≤ now) :
    AuthClient.poll_for_token g now rs =
      { outcome := .failure (.deviceCodeError
          "Device code expired before polling completed."),
        requests := 0, sleeps := [],
        final := { grant := g, interval := g.interval, now := now } } := by
  have hg : g.is_expired now = true := by
    simp [DeviceCodeGrant.is_expired, h]
  unfold AuthClient.poll_for_token
  cases rs <;> simp [pollLoop, hg]

/-- Witness for C4: grant expired one second ago, non-empty script. -/
theorem poll_expired_grant_witness :
    AuthClient.poll_for_token
      { device_code := "d", user_code := "u", verification_uri := "v",
        verification_uri_complete := none, expires_at := 0, interval := 5 }
      1 [TokenEndpointResp.err (some "authorization_pending")] =
      { outcome := .failure (.deviceCodeError
          "Device code expired before polling completed."),
        requests := 0, sleeps := [],
        final := { grant := { device_code := "d", user_code := "u",
                              verification_uri := "v",
                              verification_uri_complete := none,
                              expires_at := 0, interval := 5 },
                   interval := 5, now := 1 } } :=
  poll_expired_grant_fails_without_request _ 1 _ (by decide)

/-- C6: a load after a save returns the saved token, whichever backend the
save used (keyring when available, otherwise the fallback file). -/
theorem token_store_save_load_roundtrip (st : StoreState) (t : TokenSet) :
    TokenStore.load (TokenStore.save st t) = some t := by
  cases hk : st.keyringAvailable <;>
    simp [TokenStore.save, TokenStore.load, TokenStore._save_to_keyring,
          TokenStore._load_from_keyring, TokenStore._serialize,
          TokenStore._deserialize, hk]

/-- C9: a success response missing the required access_token field makes
the parser raise the builtin KeyError — not an instance of the base
AuthenticationError — and that KeyError propagates unchanged through
refresh and poll_for_token. -/
theorem missing_access_token_raises_key_error :
    TokenSet.from_response 0
      { access_token := none, token_type := none, expires_in := some 5,
        refresh_token := none, scope := none } =
      Except.error (PyError.keyError "access_token") ∧
    (PyError.keyError "access_token").isAuthenticationError = false ∧
    AuthClient.refresh 0 (.ok
      { access_token := none, token_type := none, expires_in := some 5,
        refresh_token := none, scope := none }) =
      Except.error (PyError.keyError "access_token") ∧
    (AuthClient.poll_for_token
      { device_code := "d", user_code := "u", verification_uri := "v",
        verification_uri_complete := none, expires_at := 600, interval := 5 }
      0
      [TokenEndpointResp.ok
        { access_token := none, token_type := none, expires_in := some 5,
          refresh_token := none, scope := none }]).outcome =
      PollOutcome.failure (PyError.keyError "access_token") :=
  ⟨rfl, rfl, rfl, by decide⟩

/-- C2 (code evaluated at the failing input): when the browser-opening
collaborator raises during login(open_browser=True), the exception
propagates and login aborts; the identical call whose browser step
succeeds polls, persists and returns the token. -/
theorem login_browser_failure_aborts :
    AuthClient.login true
      (.ok { device_code := "d", user_code := "u", verification_uri := "v",
             verification_uri_complete := none, expires_at := 600,
             interval := 0 })
      (Except.error (PyError.otherError "no runnable browser")) 0
      [TokenEndpointResp.ok
        { access_token := some "ok", token_type := none, expires_in := some 5,
          refresh_token := none, scope := none }]
      { keyringAvailable := false, keyringEntry := none, fileData := none } =
      Except.error (PyError.otherError "no runnable browser") ∧
    AuthClient.login true
      (.ok { device_code := "d", user_code := "u", verification_uri := "v",
             verification_uri_complete := none, expires_at := 600,
             interval := 0 })
      (Except.ok ()) 0
      [TokenEndpointResp.ok
        { access_token := some "ok", token_type := none, expires_in := some 5,
          refresh_token := none, scope := none }]
      { keyringAvailable := false, keyringEntry := none, fileData := none } =
      Except.ok
        ({ access_token := "ok", token_type := "bearer", expires_at := 5,
           refresh_token := none, scope := none },
         { keyringAvailable := false, keyringEntry := none,
           fileData := some { access_token := "ok", refresh_token := none,
                              token_type := "bearer", scope := none,
                              expires_at := 5 } },
         { browserAttempts := 1, pollRequests := 1 }) :=
  ⟨rfl, rfl⟩

/-- C10: poll_for_token leaves every field of its grant argument unchanged;
slow_down handling bumps only the local interval copy in the loop state. -/
theorem poll_leaves_grant_unchanged (g : DeviceCodeGrant) (now : Int)
    (rs : List TokenEndpointResp) :
    (AuthClient.poll_for_token g now rs).final.grant = g := by
  unfold AuthClient.poll_for_token
  exact pollLoop_final_grant rs _

/-- C8: TokenStore.clear succeeds on every store state — in particular when
neither backend holds an entry — and a second clear on the resulting state
succeeds and changes nothing. -/
theorem clear_idempotent (st : StoreState) :
    (TokenStore.clear st).isOk = true ∧
    ∀ st2, TokenStore.clear st = .ok st2 → TokenStore.clear st2 = .ok st2 := by
  constructor
  · simp [TokenStore.clear, Except.isOk, Except.toBool]
  · intro st2 h
    cases hk : st.keyringAvailable <;> cases he : st.keyringEntry <;>
      simp only [TokenStore.clear, TokenStore.keyringDelete, hk, he,
        Bool.false_eq_true, if_false, if_true, Except.ok.injEq] at h <;>
      subst h <;>
      simp [TokenStore.clear, TokenStore.keyringDelete, hk, he]

/-- Witness for C8: clearing a store whose keyring holds an entry, then
clearing the already-empty result. -/
theorem clear_idempotent_witness :
    TokenStore.clear
      { keyringAvailable := true, keyringEntry := none, fileData := none } =
      Except.ok
        { keyringAvailable := true, keyringEntry := none, fileData := none } :=
  (clear_idempotent
    { keyringAvailable := true,
      keyringEntry := some { access_token := "a", refresh_token := none,
                             token_type := "bearer", scope := none,
                             expires_at := 0 },
      fileData := none }).2
    { keyringAvailable := true, keyringEntry := none, fileData := none } rfl

/-- C7: logout always succeeds, calls TokenStore.clear exactly once, and
leaves no cached token — for every store state and every revoke response
status, including failing ones (TokenRevocationError is swallowed). -/
theorem logout_always_clears_store (st : StoreState) (status : Int)
    (text : String) :
    (AuthClient.logout st status text).map
      (fun p => (TokenStore.load p.1, p.2.clearCalls)) =
      Except.ok (none, 1) := by
  cases hk : st.keyringAvailable <;> cases he : st.keyringEntry <;>
    cases hf : st.fileData <;>
    by_cases hstat : (status = 200 ∨ status = 204) <;>
    simp [AuthClient.logout, AuthClient.revoke, TokenStore.clear,
      TokenStore.keyringDelete, TokenStore.load,
      TokenStore._load_from_keyring, TokenStore._deserialize, hk, he, hf,
      hstat, Except.map]

/-- Helper: with a nonnegative starting interval, the spec schedule sums to
a nonnegative total. -/
lemma specSleepSchedule_sum_nonneg (rs : List TokenEndpointResp) :
    ∀ interval : Int, 0 ≤ interval →
      0 ≤ (specSleepSchedule interval rs).sum := by
  induction rs with
  | nil => intro i hi; simp [specSleepSchedule]
  | cons r rest ih =>
      intro i hi
      cases r with
      | ok p => simp [specSleepSchedule]
      | err code =>
          cases code with
          | none => simp [specSleepSchedule]
          | some c =>
              by_cases h1 : c = "authorization_pending"
              · have hr := ih i hi
                simp [specSleepSchedule, h1]
                omega
              · by_cases h2 : c = "slow_down"
                · have hr := ih (i + 5) (by omega)
                  simp [specSleepSchedule, h1, h2]
                  omega
                · simp [specSleepSchedule, h1, h2]

/-- Helper: on a script of only pending/slow_down responses whose sleeps end
before the grant expires, the loop sleeps exactly the spec schedule and the
final local interval carries 5 extra seconds per slow_down response. -/
lemma pollLoop_sleeps_spec (rs : List TokenEndpointResp) :
    ∀ (g : DeviceCodeGrant) (interval now : Int), 0 ≤ interval →
      onlyRetryCodes rs = true →
      now + (specSleepSchedule interval rs).sum < g.expires_at →
      (pollLoop ⟨g, interval, now⟩ rs).sleeps =
        specSleepSchedule interval rs ∧
      (pollLoop ⟨g, interval, now⟩ rs).final.interval =
        interval + 5 * (countSlowDown rs : Int) := by
  induction rs with
  | nil =>
      intro g i now hi hc hexp
      have hguard : g.is_expired now = false := by
        simp only [specSleepSchedule, List.sum_nil] at hexp
        simp only [DeviceCodeGrant.is_expired, decide_eq_false_iff_not, not_le]
        omega
      simp [pollLoop, hguard, specSleepSchedule, countSlowDown]
  | cons r rest ih =>
      intro g i now hi hc hexp
      cases r with
      | ok p => simp [onlyRetryCodes] at hc
      | err code =>
          cases code with
          | none => simp [onlyRetryCodes] at hc
          | some c =>
              simp only [onlyRetryCodes, Bool.and_eq_true, Bool.or_eq_true,
                decide_eq_true_eq] at hc
              rcases hc with ⟨hc1 | hc1, hcrest⟩
              · subst hc1
                have hs := specSleepSchedule_sum_nonneg rest i hi
                simp [specSleepSchedule] at hexp
                have hguard : g.is_expired now = false := by
                  simp only [DeviceCodeGrant.is_expired,
                    decide_eq_false_iff_not, not_le]
                  omega
                have key := ih g i (now + i) hi hcrest (by omega)
                refine ⟨?_, ?_⟩ <;>
                  simp [pollLoop, hguard, countSlowDown, key.1, key.2,
                    specSleepSchedule] <;>
                  omega
              · subst hc1
                have hs := specSleepSchedule_sum_nonneg rest (i + 5)
                  (by omega)
                simp [specSleepSchedule] at hexp
                have hguard : g.is_expired now = false := by
                  simp only [DeviceCodeGrant.is_expired,
                    decide_eq_false_iff_not, not_le]
                  omega
                have key := ih g (i + 5) (now + (i + 5)) (by omega) hcrest
                  (by omega)
                refine ⟨?_, ?_⟩ <;>
                  simp [pollLoop, hguard, countSlowDown, key.1, key.2,
                    specSleepSchedule] <;>
                  omega

/-- C5: every slow_down response bumps the effective wait interval by
exactly 5 seconds over the previous effective interval, the loop waits the
bumped interval before the next request, and the bump persists for every
subsequent attempt: on a retry-only script the sleep sequence equals the
spec schedule and the final interval is the initial one plus 5 per
slow_down. -/
theorem poll_slow_down_bumps_interval_by_five (g : DeviceCodeGrant)
    (now : Int) (rs : List TokenEndpointResp) (hi : 0 ≤ g.interval)
    (hc : onlyRetryCodes rs = true)
    (hexp : now + (specSleepSchedule g.interval rs).sum < g.expires_at) :
    (AuthClient.poll_for_token g now rs).sleeps =
      specSleepSchedule g.interval rs ∧
    (AuthClient.poll_for_token g now rs).final.interval =
      g.interval + 5 * (countSlowDown rs : Int) := by
  unfold AuthClient.poll_for_token
  exact pollLoop_sleeps_spec rs g g.interval now hi hc hexp

/-- Witness for C5: interval 5, script slow_down, pending, slow_down:
sleeps 10, 10, 15 and final interval 15. -/
theorem poll_slow_down_witness :
    (AuthClient.poll_for_token
      { device_code := "d", user_code := "u", verification_uri := "v",
        verification_uri_complete := none, expires_at := 1000, interval := 5 }
      0
      [TokenEndpointResp.err (some "slow_down"),
       TokenEndpointResp.err (some "authorization_pending"),
       TokenEndpointResp.err (some "slow_down")]).sleeps = [10, 10, 15] ∧
    (AuthClient.poll_for_token
      { device_code := "d", user_code := "u", verification_uri := "v",
        verification_uri_complete := none, expires_at := 1000, interval := 5 }
      0
      [TokenEndpointResp.err (some "slow_down"),
       TokenEndpointResp.err (some "authorization_pending"),
       TokenEndpointResp.err (some "slow_down")]).final.interval = 15 := by
  have h := poll_slow_down_bumps_interval_by_five
    { device_code := "d", user_code := "u", verification_uri := "v",
      verification_uri_complete := none, expires_at := 1000, interval := 5 }
    0
    [TokenEndpointResp.err (some "slow_down"),
     TokenEndpointResp.err (some "authorization_pending"),
     TokenEndpointResp.err (some "slow_down")]
    (by decide) (by decide) (by decide)
  refine ⟨?_, ?_⟩
  · rw [h.1]; decide
  · rw [h.2]; decide

/-- C1: the get_session dispatch. A cached unexpired token is returned
unchanged with no refresh request and no login; a cached expired token with
a (truthy) refresh_token triggers exactly one refresh, whose success is
persisted and returned, and whose TokenRefreshError failure is swallowed
and followed by exactly one full login; with no cached token, exactly one
full login runs and its result (or error) is returned. -/
theorem get_session_refresh_before_reauth (now : Int) (st : StoreState)
    (refreshResp : AuthClient.RefreshResp)
    (deviceResp : AuthClient.DeviceCodeResp)
    (browserOutcome : Except PyError Unit)
    (pollResponses : List TokenEndpointResp) :
    (∀ t, TokenStore.load st = some t → t.is_expired 30 now = false →
        AuthClient.get_session now st refreshResp deviceResp browserOutcome
          pollResponses = .ok (t, st, ⟨0, 0⟩)) ∧
    (∀ t r, TokenStore.load st = some t → t.is_expired 30 now = true →
        truthyStr t.refresh_token = true →
        AuthClient.refresh now refreshResp = .ok r →
        AuthClient.get_session now st refreshResp deviceResp browserOutcome
          pollResponses = .ok (r, TokenStore.save st r, ⟨1, 0⟩)) ∧
    (∀ t m, TokenStore.load st = some t → t.is_expired 30 now = true →
        truthyStr t.refresh_token = true →
        AuthClient.refresh now refreshResp =
          .error (.tokenRefreshError m) →
        (∀ tk st2 ltr,
            AuthClient.login true deviceResp browserOutcome now pollResponses
              st = .ok (tk, st2, ltr) →
            AuthClient.get_session now st refreshResp deviceResp
              browserOutcome pollResponses = .ok (tk, st2, ⟨1, 1⟩)) ∧
        (∀ e,
            AuthClient.login true deviceResp browserOutcome now pollResponses
              st = .error e →
            AuthClient.get_session now st refreshResp deviceResp
              browserOutcome pollResponses = .error e)) ∧
    (TokenStore.load st = none →
        (∀ tk st2 ltr,
            AuthClient.login true deviceResp browserOutcome now pollResponses
              st = .ok (tk, st2, ltr) →
            AuthClient.get_session now st refreshResp deviceResp
              browserOutcome pollResponses = .ok (tk, st2, ⟨0, 1⟩)) ∧
        (∀ e,
            AuthClient.login true deviceResp browserOutcome now pollResponses
              st = .error e →
            AuthClient.get_session now st refreshResp deviceResp
              browserOutcome pollResponses = .error e)) := by
  refine ⟨?_, ?_, ?_, ?_⟩
  · intro t hload hfresh
    simp [AuthClient.get_session, hload, hfresh]
  · intro t r hload hexp htr hr
    simp [AuthClient.get_session, hload, hexp, htr, hr]
  · intro t m hload hexp htr hr
    constructor
    · intro tk st2 ltr hlogin
      simp [AuthClient.get_session, hload, hexp, htr, hr, hlogin]
    · intro e hlogin
      simp [AuthClient.get_session, hload, hexp, htr, hr, hlogin]
  · intro hload
    constructor
    · intro tk st2 ltr hlogin
      simp [AuthClient.get_session, hload, hlogin]
    · intro e hlogin
      simp [AuthClient.get_session, hload, hlogin]

/-- Witness for C1: a cached unexpired token is returned unchanged with no
network activity. -/
theorem get_session_witness :
    AuthClient.get_session 0
      { keyringAvailable := false, keyringEntry := none,
        fileData := some { access_token := "acc", refresh_token := some "r",
                           token_type := "bearer", scope := none,
                           expires_at := 100 } }
      (.err "down") (.err "down") (Except.ok ()) [] =
      Except.ok
        ({ access_token := "acc", token_type := "bearer", expires_at := 100,
           refresh_token := some "r", scope := none },
         { keyringAvailable := false, keyringEntry := none,
           fileData := some { access_token := "acc", refresh_token := some "r",
                              token_type := "bearer", scope := none,
                              expires_at := 100 } },
         { refreshRequests := 0, loginCalls := 0 }) :=
  (get_session_refresh_before_reauth 0 _ _ _ _ _).1 _ rfl rfl
